import Mathlib

/-!
Verification of the SqliteFtpBackup pipeline (SqliteHelper.cpp, FtpUploader.h,
SqliteHelper.h, main): a shallow embedding of the snapshot engine, the FTP
transport client and the backup orchestrator, together with theorems about
retry/backoff behaviour, URL construction, artifact lifecycle, configuration
defaults, TLS policy, the page-copy loop, and the progress-callback bridge.
-/

namespace SqliteFtpBackup

/-! Section: FtpUploader configuration state (FtpUploader.h private members,
FtpUploader constructor and setters in SqliteHelper.cpp lines 315-341) -/

structure FtpUploaderState where
  host : String
  port : Int
  user : String
  pass : String
  timeoutSeconds : Int
  maxRetries : Int
  verbose : Bool
  sslVerify : Bool
  lastError : String
deriving DecidableEq, Repr

/-- Constructor `FtpUploader::FtpUploader` (SqliteHelper.cpp lines 315-328):
the member-initializer list sets `timeoutSeconds(30), maxRetries(1),
verbose(false), ... sslVerify(true)`.  In C++ a member named in the
constructor initializer list ignores its in-class default initializer, so
these are the values an object actually starts with. -/
def mkFtpUploader (host : String) (port : Int) (user pass : String) :
    FtpUploaderState :=
  { host := host, port := port, user := user, pass := pass
    timeoutSeconds := 30, maxRetries := 1, verbose := false
    sslVerify := true, lastError := "" }

/-- Setter `FtpUploader::setTimeout` (line 336). -/
def setTimeout (s : FtpUploaderState) (seconds : Int) : FtpUploaderState :=
  { s with timeoutSeconds := seconds }

/-- Setter `FtpUploader::setRetries` (line 337): `maxRetries = std::max(1, count)`. -/
def setRetries (s : FtpUploaderState) (count : Int) : FtpUploaderState :=
  { s with maxRetries := max 1 count }

/-- Setter `FtpUploader::enableVerbose` (line 338). -/
def enableVerbose (s : FtpUploaderState) (v : Bool) : FtpUploaderState :=
  { s with verbose := v }

/-- Setter `FtpUploader::setSslVerify` (line 341). -/
def setSslVerify (s : FtpUploaderState) (v : Bool) : FtpUploaderState :=
  { s with sslVerify := v }

/-! Section: URL construction (FtpUploader::buildUrl, SqliteHelper.cpp lines 343-357) -/

/-- The character replacement `std::replace(cleanedDir.begin(), cleanedDir.end(), backslash, slash)`. -/
def replaceBackslash (c : Char) : Char := if c = '\\' then '/' else c

/-- The loop `while (!cleanedDir.empty() && cleanedDir.front() == slash) erase front`. -/
def dropLeadingSlashes (l : List Char) : List Char := l.dropWhile (fun c => c = '/')

/-- The loop `while (!cleanedDir.empty() && cleanedDir.back() == slash) pop_back`. -/
def dropTrailingSlashes (l : List Char) : List Char :=
  (l.reverse.dropWhile (fun c => c = '/')).reverse

/-- Directory cleaning performed at the start of `FtpUploader::buildUrl`
(lines 345-349): backslashes become forward slashes, then leading and
trailing slashes are stripped. -/
def cleanedDir (remoteDir : String) : String :=
  String.mk (dropTrailingSlashes (dropLeadingSlashes (remoteDir.toList.map replaceBackslash)))

/-- Body of `FtpUploader::buildUrl` (lines 343-357): emits
`ftp://host`, then `:port` when `port > 0`, then `/cleanedDir` when the
cleaned directory is non-empty, then `/filename`. -/
def buildUrl (host : String) (port : Int) (remoteDir filename : String) : String :=
  let d := cleanedDir remoteDir
  "ftp://" ++ host ++ (if port > 0 then ":" ++ toString port else "") ++
    (if d ≠ "" then "/" ++ d else "") ++ "/" ++ filename

/-! Section: Transfer primitive outcomes and the upload retry loop
(FtpUploader::uploadFile, SqliteHelper.cpp lines 366-462) -/

/-- Outcome of one call to the transfer primitive `curl_easy_perform`:
`CURLE_OK` is success, any other code is a failure whose
`curl_easy_strerror` text becomes the attempt's error detail. -/
inductive CurlResult where
  | ok : CurlResult
  | err : String → CurlResult
deriving DecidableEq, Repr

/-- Observable events of one `uploadFile` call: the attempt-start log line
(`"FTP upload attempt N"`), the creation of a curl transfer handle for
attempt `N` (`curl_easy_init`), and a backoff sleep of a given number of
milliseconds (`sleepForBackoff`). -/
inductive UpEvent where
  | attemptStart : Nat → UpEvent
  | handleCreated : Nat → UpEvent
  | sleep : Nat → UpEvent
deriving DecidableEq, Repr

/-- Result of `uploadFile`: normal return, or a thrown
`std::runtime_error` carrying the given message. -/
inductive UploadOutcome where
  | success : UploadOutcome
  | failure : String → UploadOutcome
deriving DecidableEq, Repr

/-- Helper `sleepForBackoff` (SqliteHelper.cpp lines 307-312):
`500LL * (1LL << std::min(attempt - 1, 6))` milliseconds.  It is only ever
called with `attempt >= 1`, where truncated subtraction agrees with C. -/
def backoffMs (attempt : Nat) : Nat := 500 * 2 ^ (min (attempt - 1) 6)

/-- The retry loop of `FtpUploader::uploadFile` (lines 379-461):
`while (attempt < maxRetries) { ++attempt; ... }`.  Each iteration logs the
attempt, opens the file and a curl handle, runs the primitive on attempt
number `attempt + 1`; on `CURLE_OK` it returns at once, otherwise it
records the error detail and, when attempts remain, sleeps
`backoffMs attempt` before continuing.  Falling out of the loop throws
`"FTP upload failed: " ++ lastError`. -/
def uploadLoop (maxRetries : Nat) (perform : Nat → CurlResult)
    (attempt : Nat) (lastError : String) : List UpEvent × UploadOutcome :=
  if _h : attempt < maxRetries then
    let a := attempt + 1
    match perform a with
    | CurlResult.ok =>
        ([UpEvent.attemptStart a, UpEvent.handleCreated a], UploadOutcome.success)
    | CurlResult.err e =>
        if a < maxRetries then
          let rest := uploadLoop maxRetries perform a e
          (UpEvent.attemptStart a :: UpEvent.handleCreated a ::
             UpEvent.sleep (backoffMs a) :: rest.1, rest.2)
        else
          let rest := uploadLoop maxRetries perform a e
          (UpEvent.attemptStart a :: UpEvent.handleCreated a :: rest.1, rest.2)
  else
    ([], UploadOutcome.failure ("FTP upload failed: " ++ lastError))
termination_by maxRetries - attempt
decreasing_by
  all_goals omega

/-- Body of `FtpUploader::uploadFile` (lines 366-462): the
`std::filesystem::exists` guard (lines 370-373) throws
`"Local file does not exist: " ++ localFile` before any attempt; otherwise
the retry loop runs starting from `attempt = 0` with `lastError` cleared. -/
def uploadFile (localFile : String) (localExists : Bool) (maxRetries : Nat)
    (perform : Nat → CurlResult) : List UpEvent × UploadOutcome :=
  if localExists then uploadLoop maxRetries perform 0 ""
  else ([], UploadOutcome.failure ("Local file does not exist: " ++ localFile))

/-- Attempt numbers logged during an upload, in order. -/
def attemptsOf (tr : List UpEvent) : List Nat :=
  tr.filterMap (fun e =>
    match e with
    | UpEvent.attemptStart n => some n
    | _ => none)

/-- Backoff sleep durations (ms) during an upload, in order. -/
def sleepsOf (tr : List UpEvent) : List Nat :=
  tr.filterMap (fun e =>
    match e with
    | UpEvent.sleep ms => some ms
    | _ => none)

/-- Total milliseconds slept during an upload. -/
def totalSleep (tr : List UpEvent) : Nat := (sleepsOf tr).sum

/-! Section: Per-attempt curl configuration (SqliteHelper.cpp lines 398-429) -/

/-- Value of the `CURLUSESSL_ALL` enumerator of `enum curl_usessl`
(curl.h: NONE = 0, TRY = 1, CONTROL = 2, ALL = 3): require SSL on both
control and data connections. -/
def CURLUSESSL_ALL : Nat := 3

/-- The curl options `uploadFile` sets on the easy handle of every attempt. -/
structure CurlOptions where
  url : String
  username : Option String
  password : Option String
  useSsl : Nat
  sslVerifyPeer : Int
  sslVerifyHost : Int
  upload : Bool
  createMissingDirs : Bool
  connectTimeout : Int
  responseTimeout : Int
  verboseOpt : Bool
  noProgress : Bool
deriving DecidableEq, Repr

/-- Option configuration performed inside each iteration of the upload
loop (SqliteHelper.cpp lines 398-429): URL and credentials, then
`CURLOPT_USE_SSL = CURLUSESSL_ALL` unconditionally, then
`CURLOPT_SSL_VERIFYPEER = sslVerify ? 1 : 0` and
`CURLOPT_SSL_VERIFYHOST = sslVerify ? 2 : 0`, upload mode, directory
creation, the two timeouts, verbosity, and progress reporting. -/
def configureCurl (s : FtpUploaderState) (url : String) (hasProgressCb : Bool) :
    CurlOptions :=
  { url := url
    username := if s.user ≠ "" then some s.user else none
    password := if s.pass ≠ "" then some s.pass else none
    useSsl := CURLUSESSL_ALL
    sslVerifyPeer := if s.sslVerify then 1 else 0
    sslVerifyHost := if s.sslVerify then 2 else 0
    upload := true
    createMissingDirs := true
    connectTimeout := s.timeoutSeconds
    responseTimeout := s.timeoutSeconds
    verboseOpt := s.verbose
    noProgress := !hasProgressCb }

/-! Section: Progress-callback bridge (curlProgress, SqliteHelper.cpp lines 276-290) -/

/-- Bridge `curlProgress` passed to `CURLOPT_XFERINFOFUNCTION`.  The
caller-supplied callback is modelled by its behaviour on the four byte
counters: `Except.ok` for a normal return, `Except.error` for a thrown
exception; `none` models a null/empty `clientp`.  The C++ bridge wraps the
call in `try/catch (...)`, returns `1` (abort) when the callback throws
and `0` otherwise, so the bridge itself is a total function. -/
def curlProgress (cb : Option (Int × Int × Int × Int → Except String Unit))
    (dltotal dlnow ultotal ulnow : Int) : Int :=
  match cb with
  | none => 0
  | some f =>
    match f (dltotal, dlnow, ultotal, ulnow) with
    | Except.ok _ => 0
    | Except.error _ => 1

/-! Section: Snapshot engine (SqliteHelper::backupToFile, SqliteHelper.cpp
lines 178-211) -/

/-- Status codes returned by `sqlite3_backup_step`: `SQLITE_OK` (more pages
remain), `SQLITE_BUSY` / `SQLITE_LOCKED` (transient contention),
`SQLITE_DONE` (full copy finished), or some other fatal code. -/
inductive BackupRc where
  | ok : BackupRc
  | busy : BackupRc
  | locked : BackupRc
  | done : BackupRc
  | fatal : Nat → BackupRc
deriving DecidableEq, Repr

/-- Condition of the `if (rc == SQLITE_BUSY || rc == SQLITE_LOCKED)` sleep
guard (line 199). -/
def isRetryRc (rc : BackupRc) : Bool :=
  match rc with
  | BackupRc.busy => true
  | BackupRc.locked => true
  | _ => false

/-- Condition of the `while (rc == SQLITE_OK || rc == SQLITE_BUSY ||
rc == SQLITE_LOCKED)` loop (line 202). -/
def isLoopRc (rc : BackupRc) : Bool :=
  match rc with
  | BackupRc.ok => true
  | BackupRc.busy => true
  | BackupRc.locked => true
  | _ => false

/-- Observable events of the page-copy loop: one `sqlite3_backup_step`
call with its page batch size, and one `sqlite3_sleep` with its duration
in milliseconds. -/
inductive BkEvent where
  | step : Nat → BkEvent
  | sleep : Nat → BkEvent
deriving DecidableEq, Repr

/-- The `do { rc = sqlite3_backup_step(backup, 1024); ... } while (...)`
loop (lines 196-202).  `prim i` is the status the primitive reports on its
`i`-th invocation (0-indexed).  The C++ loop is unbounded; `fuel` bounds
the embedding, with `none` meaning the loop has not yet exited within
`fuel` iterations. -/
def backupLoop (prim : Nat → BackupRc) : Nat → Nat → Option (List BkEvent × BackupRc)
  | 0, _ => none
  | fuel + 1, i =>
    let rc := prim i
    let evs := BkEvent.step 1024 :: (if isRetryRc rc then [BkEvent.sleep 50] else [])
    if isLoopRc rc then
      match backupLoop prim fuel (i + 1) with
      | some (rest, final) => some (evs ++ rest, final)
      | none => none
    else
      some (evs, rc)

/-- Result of `SqliteHelper::backupToFile`: normal return or a thrown
`std::runtime_error`. -/
inductive SnapshotOutcome where
  | success : SnapshotOutcome
  | failure : String → SnapshotOutcome
deriving DecidableEq, Repr

/-- Tail of `SqliteHelper::backupToFile` (lines 196-210): after the copy
loop exits with status `rc`, `sqlite3_backup_finish` runs and the call
succeeds iff `rc == SQLITE_DONE` and the finish call returned
`SQLITE_OK`; otherwise it throws `"sqlite3_backup failed: ..."`. -/
def backupToFile (prim : Nat → BackupRc) (finishOk : Bool) (fuel : Nat) :
    Option (List BkEvent × SnapshotOutcome) :=
  match backupLoop prim fuel 0 with
  | none => none
  | some (evs, rc) =>
    if rc = BackupRc.done ∧ finishOk = true then some (evs, SnapshotOutcome.success)
    else some (evs, SnapshotOutcome.failure "sqlite3_backup failed")

/-! Section: Database content and the snapshot guarantee
(SqliteHelper.cpp lines 178-228) -/

/-- Row of the `people` table (the anonymous-namespace `Person`
aggregate, SqliteHelper.cpp lines 15-20). -/
structure Person where
  firstName : String
  lastName : String
  email : String
  createdAt : String
deriving DecidableEq, Repr

/-- Abstract content of one SQLite database: the rows of its `people`
table. -/
structure Database where
  people : List Person
deriving DecidableEq, Repr

/-- Query `SELECT COUNT(*) FROM people` (`SqliteHelper::getRowCount`,
lines 213-228) evaluated on a database value. -/
def getRowCount (db : Database) : Nat := db.people.length

/-- Modelled from the spec: the page-copy primitive family
(`sqlite3_backup_init` / `step` / `finish`) lives in the SQLite library,
not in this repository; spec section 4.1 guarantees that a produced
destination file is a consistent full copy of the source at some instant
during the call.  Here `src` is the source content at that instant, and a
run of `backupToFile` that ends in `SnapshotOutcome.success` yields a
destination equal to it; any other run leaves no valid destination. -/
def backupDest (src : Database) (prim : Nat → BackupRc) (finishOk : Bool)
    (fuel : Nat) : Option Database :=
  match backupToFile prim finishOk fuel with
  | some (_, SnapshotOutcome.success) => some src
  | _ => none

/-! Section: Orchestrator (BackupManager::run and TempFileRemover,
SqliteHelper.cpp lines 516-590) -/

/-- Observable events of one `BackupManager::run` call that concern the
artifact and error reporting: creation of the timestamped artifact file
(by `backupToFile` opening the destination), the single
`std::filesystem::remove` performed by `TempFileRemover`'s destructor,
and an error-severity log line from the catch blocks. -/
inductive RunEvent where
  | artifactCreated : RunEvent
  | artifactRemoved : RunEvent
  | logError : String → RunEvent
deriving DecidableEq, Repr

/-- What `BackupManager::run` returns together with its event trace. -/
structure RunResult where
  trace : List RunEvent
  ret : Bool
deriving DecidableEq, Repr

/-- Body of `BackupManager::run` (lines 547-590).  Stage outcomes are
parameters: `setupErr` is a thrown error from the stages before the
artifact path exists (`SqliteHelper` constructor, `createTable`,
`insertRandomRows`, `getRowCount`); `snapErr` from `backupToFile`
(`snapCreated` records whether the destination file had been created
before the failure); `upErr` from `uploadFile`.  The `TempFileRemover`
declared just before `backupToFile` (line 560) removes the artifact path
in its destructor, which runs during stack unwinding — hence before the
catch block logs — and also on the normal exit path, in both cases exactly
once.  Both catch blocks log at error severity and return `false`;
reaching the end returns `true`. -/
def runPipeline (setupErr : Option String) (snapCreated : Bool)
    (snapErr upErr : Option String) : RunResult :=
  match setupErr with
  | some e =>
    { trace := [RunEvent.logError ("Exception during backup/upload: " ++ e)]
      ret := false }
  | none =>
    match snapErr with
    | some e =>
      { trace := (if snapCreated then [RunEvent.artifactCreated] else []) ++
          [RunEvent.artifactRemoved,
           RunEvent.logError ("Exception during backup/upload: " ++ e)]
        ret := false }
    | none =>
      match upErr with
      | some e =>
        { trace := [RunEvent.artifactCreated, RunEvent.artifactRemoved,
            RunEvent.logError ("Exception during backup/upload: " ++ e)]
          ret := false }
      | none =>
        { trace := [RunEvent.artifactCreated, RunEvent.artifactRemoved]
          ret := true }

/-- Number of artifact files present on disk after a list of events,
starting from none: creation adds one, `std::filesystem::remove` deletes
the file when present (and reports `false` without effect otherwise). -/
def artifactStep (n : Nat) (e : RunEvent) : Nat :=
  match e with
  | RunEvent.artifactCreated => n + 1
  | RunEvent.artifactRemoved => n - 1
  | RunEvent.logError _ => n

/-- Artifacts on disk after the whole event list. -/
def artifactsAfter (tr : List RunEvent) : Nat := tr.foldl artifactStep 0

/-- Number of `std::filesystem::remove` calls in a trace. -/
def countRemovals (tr : List RunEvent) : Nat :=
  tr.countP (fun e =>
    match e with
    | RunEvent.artifactRemoved => true
    | _ => false)

/-! Section: Helper lemmas -/

/-- Dropping leading slashes leaves a list whose head is not a slash. -/
theorem head?_dropLeadingSlashes (l : List Char) :
    (dropLeadingSlashes l).head? ≠ some '/' := by
  induction l with
  | nil => simp [dropLeadingSlashes]
  | cons c t ih =>
    by_cases hc : c = '/'
    · simpa [dropLeadingSlashes, List.dropWhile_cons, hc] using ih
    · simp [dropLeadingSlashes, List.dropWhile_cons, hc]

/-- Dropping trailing slashes leaves a list whose last element is not a slash. -/
theorem getLast?_dropTrailingSlashes (l : List Char) :
    (dropTrailingSlashes l).getLast? ≠ some '/' := by
  unfold dropTrailingSlashes
  rw [List.getLast?_reverse]
  exact head?_dropLeadingSlashes l.reverse

/-- Dropping trailing slashes yields a prefix of the original list. -/
theorem dropTrailingSlashes_prefixOf (l : List Char) :
    dropTrailingSlashes l <+: l := by
  unfold dropTrailingSlashes
  have h := List.dropWhile_suffix (l := l.reverse) (fun c => decide (c = '/'))
  have := List.reverse_prefix.mpr h
  simpa using this

/-- Membership in the trailing-slash-stripped list implies membership in
the original list. -/
theorem mem_of_mem_dropTrailingSlashes {c : Char} {l : List Char}
    (h : c ∈ dropTrailingSlashes l) : c ∈ l :=
  (dropTrailingSlashes_prefixOf l).subset h

/-- Membership in the leading-slash-stripped list implies membership in
the original list. -/
theorem mem_of_mem_dropLeadingSlashes {c : Char} {l : List Char}
    (h : c ∈ dropLeadingSlashes l) : c ∈ l :=
  (List.dropWhile_suffix (fun c => decide (c = '/'))).subset h

/-- The replacement used by `buildUrl` never produces a backslash. -/
theorem replaceBackslash_ne (c : Char) : replaceBackslash c ≠ '\\' := by
  unfold replaceBackslash
  by_cases hc : c = '\\' <;> simp [hc]

/-- Once `attempt >= maxRetries`, the upload loop exits and throws the
last error detail. -/
theorem uploadLoop_exhausted (R : Nat) (perform : Nat → CurlResult) (i : Nat)
    (le : String) (h : ¬ i < R) :
    uploadLoop R perform i le =
      ([], UploadOutcome.failure ("FTP upload failed: " ++ le)) := by
  rw [uploadLoop]
  simp [h]

/-- Trace and outcome of the upload loop when every remaining attempt
fails: starting at position `i < R`, the loop performs attempts
`i+1 .. R`, sleeping `backoffMs k` after each failed attempt `k < R` and
not after attempt `R`, and throws the last attempt's error detail. -/
theorem uploadLoop_allFail (R : Nat) (perform : Nat → CurlResult) (e : Nat → String) :
    ∀ n i le, R - i = n → i < R →
      (∀ k, i < k → k ≤ R → perform k = CurlResult.err (e k)) →
      uploadLoop R perform i le =
        ((List.range' (i + 1) (R - i)).flatMap (fun k =>
            [UpEvent.attemptStart k, UpEvent.handleCreated k] ++
              (if k < R then [UpEvent.sleep (backoffMs k)] else [])),
         UploadOutcome.failure ("FTP upload failed: " ++ e R)) := by
  intro n
  induction n with
  | zero =>
    intro i le hn hi _
    omega
  | succ m ih =>
    intro i le hn hi hfail
    have hk : perform (i + 1) = CurlResult.err (e (i + 1)) :=
      hfail (i + 1) (by omega) (by omega)
    rw [uploadLoop]
    rw [dif_pos hi]
    simp only [hk]
    by_cases hlt : i + 1 < R
    · have hrec := ih (i + 1) (e (i + 1)) (by omega) hlt
        (fun k hk1 hk2 => hfail k (by omega) hk2)
      rw [hrec]
      simp only [if_pos hlt]
      have hRi : R - i = m + 1 := hn
      rw [hRi, List.range'_succ, List.flatMap_cons]
      simp only [if_pos hlt]
      have hm : R - (i + 1) = m := by omega
      rw [hm]
      rfl
    · have hiR : R = i + 1 := by omega
      have hrec := uploadLoop_exhausted R perform (i + 1) (e (i + 1)) hlt
      rw [hrec]
      have hRi : R - i = 1 := by omega
      rw [hRi, List.range'_succ, List.range'_zero, List.flatMap_cons,
          List.flatMap_nil]
      simp only [if_neg hlt]
      rw [show e R = e (i + 1) from by rw [hiR]]
      rfl

/-- Trace and outcome of the upload loop when attempts `i+1 .. k-1` fail
and attempt `k <= R` succeeds: the loop performs exactly attempts
`i+1 .. k`, sleeping after each failed one, and returns success at
attempt `k`. -/
theorem uploadLoop_firstSuccess (R : Nat) (perform : Nat → CurlResult) (e : Nat → String) :
    ∀ n i le k, k - (i + 1) = n → i < k → k ≤ R →
      (∀ j, i < j → j < k → perform j = CurlResult.err (e j)) →
      perform k = CurlResult.ok →
      uploadLoop R perform i le =
        ((List.range' (i + 1) (k - 1 - i)).flatMap (fun j =>
            [UpEvent.attemptStart j, UpEvent.handleCreated j,
             UpEvent.sleep (backoffMs j)]) ++
           [UpEvent.attemptStart k, UpEvent.handleCreated k],
         UploadOutcome.success) := by
  intro n
  induction n with
  | zero =>
    intro i le k hn hik hkR _ hok
    have hk : k = i + 1 := by omega
    subst hk
    rw [uploadLoop]
    rw [dif_pos (by omega : i < R)]
    simp only [hok]
    have h0 : i + 1 - 1 - i = 0 := by omega
    rw [h0, List.range'_zero, List.flatMap_nil, List.nil_append]
  | succ m ih =>
    intro i le k hn hik hkR hfail hok
    have hi1k : i + 1 < k := by omega
    have hkerr : perform (i + 1) = CurlResult.err (e (i + 1)) :=
      hfail (i + 1) (by omega) hi1k
    rw [uploadLoop]
    rw [dif_pos (by omega : i < R)]
    simp only [hkerr]
    have hlt : i + 1 < R := by omega
    simp only [if_pos hlt]
    have hrec := ih (i + 1) (e (i + 1)) k (by omega) hi1k hkR
      (fun j hj1 hj2 => hfail j (by omega) hj2) hok
    rw [hrec]
    have hki : k - 1 - i = (k - 1 - (i + 1)) + 1 := by omega
    rw [hki, List.range'_succ, List.flatMap_cons]
    rfl

/-- `attemptsOf` of a list of failed-attempt event chunks recovers the
attempt numbers. -/
theorem attemptsOf_failChunks (R : Nat) (l : List Nat) :
    attemptsOf (l.flatMap (fun k =>
      [UpEvent.attemptStart k, UpEvent.handleCreated k] ++
        (if k < R then [UpEvent.sleep (backoffMs k)] else []))) = l := by
  induction l with
  | nil => rfl
  | cons a t ih =>
    by_cases h : a < R <;>
      simp [attemptsOf, List.flatMap_cons, h] <;>
      simpa [attemptsOf] using ih

/-- `sleepsOf` of a list of failed-attempt event chunks: one backoff per
attempt number below `R`. -/
theorem sleepsOf_failChunks (R : Nat) (l : List Nat) :
    sleepsOf (l.flatMap (fun k =>
      [UpEvent.attemptStart k, UpEvent.handleCreated k] ++
        (if k < R then [UpEvent.sleep (backoffMs k)] else []))) =
      (l.filter (fun k => decide (k < R))).map backoffMs := by
  induction l with
  | nil => rfl
  | cons a t ih =>
    by_cases h : a < R <;>
      simp [sleepsOf, List.flatMap_cons, List.filter_cons, h] <;>
      simpa [sleepsOf] using ih

/-- Filtering `range' 1 R` by `< R` keeps exactly `range' 1 (R - 1)`. -/
theorem filter_range'_lt (R : Nat) (h : 1 ≤ R) :
    (List.range' 1 R).filter (fun k => decide (k < R)) = List.range' 1 (R - 1) := by
  have hsplit : List.range' 1 (R - 1) ++ List.range' (1 + (R - 1)) 1 = List.range' 1 R := by
    rw [List.range'_append_1]
    congr 1
    omega
  rw [← hsplit, List.filter_append]
  have h1 : (List.range' 1 (R - 1)).filter (fun k => decide (k < R)) =
      List.range' 1 (R - 1) := by
    apply List.filter_eq_self.mpr
    intro a ha
    have := List.mem_range'_1.mp ha
    simp only [decide_eq_true_eq]
    omega
  have h2 : (List.range' (1 + (R - 1)) 1).filter (fun k => decide (k < R)) = [] := by
    have hR : 1 + (R - 1) = R := by omega
    rw [hR]
    simp [List.range'_succ]
  rw [h1, h2, List.append_nil]

/-- A status that exits the copy loop is not a busy/locked status. -/
theorem isRetryRc_of_not_isLoopRc {rc : BackupRc} (h : isLoopRc rc = false) :
    isRetryRc rc = false := by
  cases rc <;> simp [isLoopRc, isRetryRc] at *

/-- Whenever the copy loop returns, the status it returns is one that
fails the loop condition: the loop exits only on `SQLITE_DONE` or a fatal
status, never on ok/busy/locked. -/
theorem backupLoop_exit (prim : Nat → BackupRc) :
    ∀ fuel i tr rc, backupLoop prim fuel i = some (tr, rc) → isLoopRc rc = false := by
  intro fuel
  induction fuel with
  | zero =>
    intro i tr rc h
    simp [backupLoop] at h
  | succ m ih =>
    intro i tr rc h
    rw [backupLoop] at h
    by_cases hl : isLoopRc (prim i)
    · simp only [hl, if_true] at h
      rcases hrec : backupLoop prim m (i + 1) with _ | ⟨rest, final⟩
      · rw [hrec] at h
        simp at h
      · rw [hrec] at h
        simp only [Option.some.injEq, Prod.mk.injEq] at h
        rw [← h.2]
        exact ih (i + 1) rest final hrec
    · simp only [Bool.not_eq_true] at hl
      simp only [hl, Bool.false_eq_true, if_false, Option.some.injEq,
        Prod.mk.injEq] at h
      rw [← h.2]
      exact hl

/-- Every event of a returned copy-loop trace is a 1024-page step or a
50 ms sleep. -/
theorem backupLoop_events (prim : Nat → BackupRc) :
    ∀ fuel i tr rc, backupLoop prim fuel i = some (tr, rc) →
      ∀ ev ∈ tr, ev = BkEvent.step 1024 ∨ ev = BkEvent.sleep 50 := by
  intro fuel
  induction fuel with
  | zero =>
    intro i tr rc h
    simp [backupLoop] at h
  | succ m ih =>
    intro i tr rc h
    rw [backupLoop] at h
    by_cases hl : isLoopRc (prim i)
    · simp only [hl, if_true] at h
      rcases hrec : backupLoop prim m (i + 1) with _ | ⟨rest, final⟩
      · rw [hrec] at h
        simp at h
      · rw [hrec] at h
        simp only [Option.some.injEq, Prod.mk.injEq] at h
        intro ev hev
        rw [← h.1] at hev
        rcases List.mem_append.mp hev with hev1 | hev2
        · rcases List.mem_cons.mp hev1 with h1 | h2
          · left; exact h1
          · right
            by_cases hr : isRetryRc (prim i) <;> simp [hr] at h2
            exact h2
        · exact ih (i + 1) rest final hrec ev hev2
    · simp only [Bool.not_eq_true] at hl
      simp only [hl, Bool.false_eq_true, if_false, Option.some.injEq,
        Prod.mk.injEq] at h
      intro ev hev
      rw [← h.1] at hev
      rcases List.mem_cons.mp hev with h1 | h2
      · left; exact h1
      · right
        rw [isRetryRc_of_not_isLoopRc hl] at h2
        simp at h2

/-- With too little fuel over a run of loop-continuing statuses, the copy
loop has not yet exited. -/
theorem backupLoop_none_of_short (prim : Nat → BackupRc) :
    ∀ fuel i, (∀ j, j < fuel → isLoopRc (prim (i + j)) = true) →
      backupLoop prim fuel i = none := by
  intro fuel
  induction fuel with
  | zero =>
    intro i _
    rfl
  | succ m ih =>
    intro i h
    have h0 : isLoopRc (prim i) = true := by
      have := h 0 (by omega)
      simpa using this
    rw [backupLoop]
    simp only [h0, if_true]
    rw [ih (i + 1) (fun j hj => by
      have := h (j + 1) (by omega)
      rwa [show i + (j + 1) = i + 1 + j from by omega] at this)]

/-- Exact trace of the copy loop when the primitive reports a
loop-continuing status on its first `n` invocations and a terminal status
on invocation `n`: for any fuel above `n` the loop exits after `n + 1`
steps of 1024 pages each, with a 50 ms sleep after each busy/locked
status, returning the terminal status. -/
theorem backupLoop_terminates (prim : Nat → BackupRc) :
    ∀ n i, (∀ j, j < n → isLoopRc (prim (i + j)) = true) →
      isLoopRc (prim (i + n)) = false →
      ∀ fuel, n < fuel →
      backupLoop prim fuel i =
        some ((List.range' i n).flatMap (fun j =>
            BkEvent.step 1024 ::
              (if isRetryRc (prim j) then [BkEvent.sleep 50] else [])) ++
          [BkEvent.step 1024], prim (i + n)) := by
  intro n
  induction n with
  | zero =>
    intro i _ hterm fuel hfuel
    obtain ⟨m, rfl⟩ : ∃ m, fuel = m + 1 := ⟨fuel - 1, by omega⟩
    rw [backupLoop]
    have h0 : isLoopRc (prim i) = false := by simpa using hterm
    have hr : isRetryRc (prim i) = false := isRetryRc_of_not_isLoopRc h0
    simp [h0, hr, List.range'_zero]
  | succ m ih =>
    intro i hpre hterm fuel hfuel
    obtain ⟨f, rfl⟩ : ∃ f, fuel = f + 1 := ⟨fuel - 1, by omega⟩
    rw [backupLoop]
    have h0 : isLoopRc (prim i) = true := by
      have := hpre 0 (by omega)
      simpa using this
    simp only [h0, if_true]
    have hrec := ih (i + 1)
      (fun j hj => by
        have := hpre (j + 1) (by omega)
        rwa [show i + (j + 1) = i + 1 + j from by omega] at this)
      (by rwa [show i + (m + 1) = i + 1 + m from by omega] at hterm)
      f (by omega)
    rw [hrec]
    rw [List.range'_succ, List.flatMap_cons]
    simp [List.append_assoc, show i + 1 + m = i + (m + 1) from by omega]

/-! Section: Claim theorems -/

/-- C1: for every retry limit `R >= 1`, `uploadFile` on an existing local
file numbers attempts from 1 and treats every non-success primitive
status as a failed attempt; after failed attempt `k < R` it sleeps
exactly `backoffMs k = 500 * 2 ^ min (k-1) 6` milliseconds; it returns
immediately on the first successful attempt; when the primitive fails on
every attempt it makes exactly `R` attempts, sleeps no further after the
last, throws an error carrying the last attempt's error detail, and the
total sleep is the sum of `backoffMs k` over `k = 1 .. R-1`. -/
theorem C1_retry_backoff (R : Nat) (hR : 1 ≤ R) (perform : Nat → CurlResult)
    (e : Nat → String) (localFile : String) :
    ((∀ k, 1 ≤ k → k ≤ R → perform k = CurlResult.err (e k)) →
      uploadFile localFile true R perform =
        ((List.range' 1 R).flatMap (fun k =>
            [UpEvent.attemptStart k, UpEvent.handleCreated k] ++
              (if k < R then [UpEvent.sleep (backoffMs k)] else [])),
         UploadOutcome.failure ("FTP upload failed: " ++ e R)) ∧
      attemptsOf (uploadFile localFile true R perform).1 = List.range' 1 R ∧
      sleepsOf (uploadFile localFile true R perform).1 =
        (List.range' 1 (R - 1)).map backoffMs ∧
      totalSleep (uploadFile localFile true R perform).1 =
        ((List.range' 1 (R - 1)).map backoffMs).sum) ∧
    (∀ k, 1 ≤ k → k ≤ R →
      (∀ j, 1 ≤ j → j < k → perform j = CurlResult.err (e j)) →
      perform k = CurlResult.ok →
      uploadFile localFile true R perform =
        ((List.range' 1 (k - 1)).flatMap (fun j =>
            [UpEvent.attemptStart j, UpEvent.handleCreated j,
             UpEvent.sleep (backoffMs j)]) ++
          [UpEvent.attemptStart k, UpEvent.handleCreated k],
         UploadOutcome.success)) ∧
    (∀ k, backoffMs k = 500 * 2 ^ (min (k - 1) 6)) := by
  refine ⟨?_, ?_, fun k => rfl⟩
  · intro hfail
    have hTrace : uploadFile localFile true R perform =
        ((List.range' 1 R).flatMap (fun k =>
            [UpEvent.attemptStart k, UpEvent.handleCreated k] ++
              (if k < R then [UpEvent.sleep (backoffMs k)] else [])),
         UploadOutcome.failure ("FTP upload failed: " ++ e R)) :=
      uploadLoop_allFail R perform e R 0 "" rfl (by omega)
        (fun k h1 h2 => hfail k h1 h2)
    refine ⟨hTrace, ?_, ?_, ?_⟩
    · rw [hTrace]
      exact attemptsOf_failChunks R (List.range' 1 R)
    · rw [hTrace]
      rw [show (((List.range' 1 R).flatMap (fun k =>
            [UpEvent.attemptStart k, UpEvent.handleCreated k] ++
              (if k < R then [UpEvent.sleep (backoffMs k)] else [])),
         UploadOutcome.failure ("FTP upload failed: " ++ e R)).1 =
           (List.range' 1 R).flatMap (fun k =>
            [UpEvent.attemptStart k, UpEvent.handleCreated k] ++
              (if k < R then [UpEvent.sleep (backoffMs k)] else []))) from rfl]
      rw [sleepsOf_failChunks R (List.range' 1 R), filter_range'_lt R hR]
    · show (sleepsOf (uploadFile localFile true R perform).1).sum = _
      rw [hTrace]
      rw [show (((List.range' 1 R).flatMap (fun k =>
            [UpEvent.attemptStart k, UpEvent.handleCreated k] ++
              (if k < R then [UpEvent.sleep (backoffMs k)] else [])),
         UploadOutcome.failure ("FTP upload failed: " ++ e R)).1 =
           (List.range' 1 R).flatMap (fun k =>
            [UpEvent.attemptStart k, UpEvent.handleCreated k] ++
              (if k < R then [UpEvent.sleep (backoffMs k)] else []))) from rfl]
      rw [sleepsOf_failChunks R (List.range' 1 R), filter_range'_lt R hR]
  · intro k hk1 hkR hbefore hok
    exact uploadLoop_firstSuccess R perform e (k - 1) 0 "" k (by omega)
      (by omega) hkR (fun j h1 h2 => hbefore j h1 h2) hok

/-- Witness for C1 with `R = 2` and an always-failing primitive. -/
theorem C1_retry_backoff_witness :
    1 ≤ 2 ∧
    uploadFile "f" true 2 (fun _ => CurlResult.err "boom") =
      ((List.range' 1 2).flatMap (fun k =>
          [UpEvent.attemptStart k, UpEvent.handleCreated k] ++
            (if k < 2 then [UpEvent.sleep (backoffMs k)] else [])),
       UploadOutcome.failure ("FTP upload failed: " ++ "boom")) :=
  ⟨by decide,
   ((C1_retry_backoff 2 (by decide) (fun _ => CurlResult.err "boom")
       (fun _ => "boom") "f").1 (fun _ _ _ => rfl)).1⟩

/-- C2 (code bug evaluation): a freshly constructed `FtpUploader` has
timeout 30, TLS verification enabled, verbose off — but `maxRetries` is 1,
not the 3 documented in the header and the spec, because the constructor's
member-initializer list `maxRetries(1)` overrides the in-class initializer
`int maxRetries = 3;`.  `setRetries` does enforce the minimum of 1 for
every integer input. -/
theorem C2_constructor_defaults :
    (mkFtpUploader "ftp.example.com" 21 "u" "p").timeoutSeconds = 30 ∧
    (mkFtpUploader "ftp.example.com" 21 "u" "p").sslVerify = true ∧
    (mkFtpUploader "ftp.example.com" 21 "u" "p").verbose = false ∧
    (mkFtpUploader "ftp.example.com" 21 "u" "p").maxRetries = 1 ∧
    (mkFtpUploader "ftp.example.com" 21 "u" "p").maxRetries ≠ 3 ∧
    ∀ (s : FtpUploaderState) (c : Int),
      (setRetries s c).maxRetries = max 1 c ∧ 1 ≤ (setRetries s c).maxRetries := by
  refine ⟨rfl, rfl, rfl, rfl, by decide, ?_⟩
  intro s c
  exact ⟨rfl, le_max_left 1 c⟩

/-- C4: for every host, port and filename the three directory spellings
`"a\\b\\"`, `"/a/b/"` and `"a/b"` produce the same URL; in general
`buildUrl` replaces every backslash of the remote directory by a forward
slash, strips all leading and trailing slashes, inserts the cleaned
directory only when non-empty, and yields
`scheme://host[:port]/cleanedDirectory/filename`. -/
theorem C4_buildUrl_cleaning (host : String) (port : Int) (f d : String) :
    buildUrl host port "a\\b\\" f = buildUrl host port "/a/b/" f ∧
    buildUrl host port "/a/b/" f = buildUrl host port "a/b" f ∧
    buildUrl host port d f =
      "ftp://" ++ host ++ (if port > 0 then ":" ++ toString port else "") ++
        (if cleanedDir d ≠ "" then "/" ++ cleanedDir d else "") ++ "/" ++ f ∧
    (cleanedDir d).toList =
      dropTrailingSlashes (dropLeadingSlashes (d.toList.map replaceBackslash)) ∧
    '\\' ∉ (cleanedDir d).toList ∧
    (cleanedDir d).toList.head? ≠ some '/' ∧
    (cleanedDir d).toList.getLast? ≠ some '/' := by
  refine ⟨?_, ?_, rfl, rfl, ?_, ?_, ?_⟩
  · show buildUrl host port "a\\b\\" f = buildUrl host port "/a/b/" f
    unfold buildUrl
    rw [show cleanedDir "a\\b\\" = "a/b" from by decide,
        show cleanedDir "/a/b/" = "a/b" from by decide]
  · unfold buildUrl
    rw [show cleanedDir "/a/b/" = "a/b" from by decide,
        show cleanedDir "a/b" = "a/b" from by decide]
  · intro hmem
    have h1 : '\\' ∈ dropLeadingSlashes (d.toList.map replaceBackslash) :=
      mem_of_mem_dropTrailingSlashes hmem
    have h2 : '\\' ∈ d.toList.map replaceBackslash :=
      mem_of_mem_dropLeadingSlashes h1
    obtain ⟨c, _, hc⟩ := List.mem_map.mp h2
    exact replaceBackslash_ne c hc
  · show (cleanedDir d).toList.head? ≠ some '/'
    intro h
    have hpre := dropTrailingSlashes_prefixOf
      (dropLeadingSlashes (d.toList.map replaceBackslash))
    obtain ⟨t, ht⟩ := hpre
    have : (dropLeadingSlashes (d.toList.map replaceBackslash)).head? = some '/' := by
      rw [← ht]
      exact List.mem_head?_append_of_mem_head? h
    exact head?_dropLeadingSlashes _ this
  · exact getLast?_dropTrailingSlashes _

/-- C5: when the local file does not exist, `uploadFile` fails
immediately with zero attempts: the event trace is empty (no attempt
started, no transfer handle created, no backoff sleep), for every retry
configuration and every behaviour of the transfer primitive. -/
theorem C5_missing_local_file (localFile : String) (maxRetries : Nat)
    (perform : Nat → CurlResult) :
    (uploadFile localFile false maxRetries perform).1 = [] ∧
    attemptsOf (uploadFile localFile false maxRetries perform).1 = [] ∧
    sleepsOf (uploadFile localFile false maxRetries perform).1 = [] ∧
    (uploadFile localFile false maxRetries perform).2 =
      UploadOutcome.failure ("Local file does not exist: " ++ localFile) := by
  refine ⟨rfl, rfl, rfl, rfl⟩

/-- C7: on every attempt and for both values of the TLS-verify flag the
curl handle is configured with `CURLOPT_USE_SSL = CURLUSESSL_ALL`
(encryption required on control and data channels); the flag changes only
the `CURLOPT_SSL_VERIFYPEER` / `CURLOPT_SSL_VERIFYHOST` options, so
disabling verification still encrypts but skips authentication. -/
theorem C7_ssl_policy (s : FtpUploaderState) (url : String) (hasCb : Bool) :
    (configureCurl s url hasCb).useSsl = CURLUSESSL_ALL ∧
    (configureCurl (setSslVerify s true) url hasCb).useSsl = CURLUSESSL_ALL ∧
    (configureCurl (setSslVerify s false) url hasCb).useSsl = CURLUSESSL_ALL ∧
    configureCurl (setSslVerify s true) url hasCb =
      { configureCurl (setSslVerify s false) url hasCb with
          sslVerifyPeer := 1, sslVerifyHost := 2 } ∧
    (configureCurl (setSslVerify s false) url hasCb).sslVerifyPeer = 0 ∧
    (configureCurl (setSslVerify s false) url hasCb).sslVerifyHost = 0 := by
  refine ⟨rfl, rfl, rfl, rfl, rfl, rfl⟩

/-- C10: the progress bridge is a total function — an exception thrown by
the caller-supplied callback is caught inside the bridge and converted to
the nonzero abort return `1`, never propagated into the transfer
primitive; a callback that returns normally, or an absent callback, gives
`0`. -/
theorem C10_progress_bridge
    (f : Int × Int × Int × Int → Except String Unit) (a b c d : Int) :
    ((∃ e, f (a, b, c, d) = Except.error e) → curlProgress (some f) a b c d = 1) ∧
    ((∃ u, f (a, b, c, d) = Except.ok u) → curlProgress (some f) a b c d = 0) ∧
    curlProgress none a b c d = 0 ∧
    (curlProgress (some f) a b c d = 0 ∨ curlProgress (some f) a b c d = 1) ∧
    (1 : Int) ≠ 0 := by
  refine ⟨?_, ?_, rfl, ?_, one_ne_zero⟩
  · rintro ⟨e, he⟩
    simp [curlProgress, he]
  · rintro ⟨u, hu⟩
    simp [curlProgress, hu]
  · rcases hres : f (a, b, c, d) with e | u
    · right
      simp [curlProgress, hres]
    · left
      simp [curlProgress, hres]

/-- Witness for C10 at a concrete throwing callback. -/
theorem C10_progress_bridge_witness :
    curlProgress (some (fun _ => Except.error "boom")) 0 0 0 0 = 1 :=
  (C10_progress_bridge (fun _ => Except.error "boom") 0 0 0 0).1 ⟨"boom", rfl⟩

/-- C3: after `BackupManager::run` returns — snapshot failure, upload
failure after retries, or success — no artifact file remains on disk; for
every run that reaches the artifact stage the `TempFileRemover` destructor
calls `std::filesystem::remove` exactly once; and at every intermediate
point of the run at most one artifact exists. -/
theorem C3_artifact_lifecycle (setupErr : Option String) (snapCreated : Bool)
    (snapErr upErr : Option String) :
    artifactsAfter (runPipeline setupErr snapCreated snapErr upErr).trace = 0 ∧
    (setupErr = none →
      countRemovals (runPipeline setupErr snapCreated snapErr upErr).trace = 1) ∧
    (∀ n, artifactsAfter ((runPipeline setupErr snapCreated snapErr upErr).trace.take n) ≤ 1) := by
  refine ⟨?_, ?_, ?_⟩
  · rcases setupErr with _ | e₁ <;> rcases snapErr with _ | e₂ <;>
      rcases upErr with _ | e₃ <;> rcases snapCreated <;>
      simp [runPipeline, artifactsAfter, artifactStep, countRemovals]
  · intro hsetup
    subst hsetup
    rcases snapErr with _ | e₂ <;> rcases upErr with _ | e₃ <;> rcases snapCreated <;>
      simp [runPipeline, artifactsAfter, artifactStep, countRemovals]
  · intro n
    rcases setupErr with _ | e₁ <;> rcases snapErr with _ | e₂ <;>
      rcases upErr with _ | e₃ <;> rcases snapCreated <;>
      rcases n with _ | _ | _ | _ | n <;>
      simp [runPipeline, artifactsAfter, artifactStep]

/-- Witness for C3 with all stages succeeding. -/
theorem C3_artifact_lifecycle_witness :
    countRemovals (runPipeline none true none none).trace = 1 :=
  (C3_artifact_lifecycle none true none none).2.1 rfl

/-- C6: `BackupManager::run` never propagates an error — it is a total
function into a boolean, returning `true` exactly when every stage
succeeds; on any stage failure it logs the failure detail at error
severity and returns `false`. -/
theorem C6_run_boolean (setupErr : Option String) (snapCreated : Bool)
    (snapErr upErr : Option String) :
    ((runPipeline setupErr snapCreated snapErr upErr).ret = true ↔
      setupErr = none ∧ snapErr = none ∧ upErr = none) ∧
    (∀ e, setupErr = some e →
      (runPipeline setupErr snapCreated snapErr upErr).ret = false ∧
      RunEvent.logError ("Exception during backup/upload: " ++ e) ∈
        (runPipeline setupErr snapCreated snapErr upErr).trace) ∧
    (∀ e, setupErr = none → snapErr = some e →
      (runPipeline setupErr snapCreated snapErr upErr).ret = false ∧
      RunEvent.logError ("Exception during backup/upload: " ++ e) ∈
        (runPipeline setupErr snapCreated snapErr upErr).trace) ∧
    (∀ e, setupErr = none → snapErr = none → upErr = some e →
      (runPipeline setupErr snapCreated snapErr upErr).ret = false ∧
      RunEvent.logError ("Exception during backup/upload: " ++ e) ∈
        (runPipeline setupErr snapCreated snapErr upErr).trace) := by
  rcases setupErr with _ | e₁ <;> rcases snapErr with _ | e₂ <;>
    rcases upErr with _ | e₃ <;> rcases snapCreated <;>
    simp [runPipeline]

/-- Witness for C6: success on all-stages-ok, failure with setup error. -/
theorem C6_run_boolean_witness :
    (runPipeline none true none none).ret = true ∧
    (runPipeline (some "x") true none none).ret = false :=
  ⟨(C6_run_boolean none true none none).1.mpr ⟨rfl, rfl, rfl⟩,
   ((C6_run_boolean (some "x") true none none).2.1 "x" rfl).1⟩

/-- C8: the snapshot copy loop calls the page-copy primitive in fixed
1024-page batches, sleeps a fixed 50 ms and retries on every busy/locked
status with no bound on the retries, and exits only when the primitive
reports done (then `backupToFile` succeeds, given a clean finish) or a
fatal status (then it fails); under the precondition that the primitive
reports a terminal status on invocation `N`, the loop terminates, needing
exactly `N + 1` invocations. -/
theorem C8_snapshot_loop (prim : Nat → BackupRc) (N : Nat) (finishOk : Bool)
    (hpre : ∀ j, j < N → isLoopRc (prim j) = true)
    (hterm : isLoopRc (prim N) = false) :
    (∀ fuel, N < fuel →
      backupLoop prim fuel 0 =
        some ((List.range' 0 N).flatMap (fun j =>
            BkEvent.step 1024 ::
              (if isRetryRc (prim j) then [BkEvent.sleep 50] else [])) ++
          [BkEvent.step 1024], prim N)) ∧
    (∀ fuel, fuel ≤ N → backupLoop prim fuel 0 = none) ∧
    (∀ fuel tr rc, backupLoop prim fuel 0 = some (tr, rc) → isLoopRc rc = false) ∧
    (∀ fuel tr rc, backupLoop prim fuel 0 = some (tr, rc) →
      ∀ ev ∈ tr, ev = BkEvent.step 1024 ∨ ev = BkEvent.sleep 50) ∧
    (∀ fuel, N < fuel → prim N = BackupRc.done → finishOk = true →
      (backupToFile prim finishOk fuel).map Prod.snd = some SnapshotOutcome.success) ∧
    (∀ fuel c, N < fuel → prim N = BackupRc.fatal c →
      (backupToFile prim finishOk fuel).map Prod.snd =
        some (SnapshotOutcome.failure "sqlite3_backup failed")) := by
  have hloop : ∀ fuel, N < fuel →
      backupLoop prim fuel 0 =
        some ((List.range' 0 N).flatMap (fun j =>
            BkEvent.step 1024 ::
              (if isRetryRc (prim j) then [BkEvent.sleep 50] else [])) ++
          [BkEvent.step 1024], prim N) := by
    intro fuel hf
    have h := backupLoop_terminates prim N 0
      (fun j hj => by rw [Nat.zero_add]; exact hpre j hj)
      (by rw [Nat.zero_add]; exact hterm) fuel hf
    rwa [Nat.zero_add] at h
  refine ⟨hloop, ?_, ?_, ?_, ?_, ?_⟩
  · intro fuel hf
    exact backupLoop_none_of_short prim fuel 0
      (fun j hj => by rw [Nat.zero_add]; exact hpre j (by omega))
  · intro fuel tr rc h
    exact backupLoop_exit prim fuel 0 tr rc h
  · intro fuel tr rc h
    exact backupLoop_events prim fuel 0 tr rc h
  · intro fuel hf hdone hfin
    unfold backupToFile
    rw [hloop fuel hf, hdone, hfin]
    simp
  · intro fuel c hf hfatal
    unfold backupToFile
    rw [hloop fuel hf, hfatal]
    simp

/-- Witness for C8: two busy statuses then done, fuel 3. -/
theorem C8_snapshot_loop_witness :
    backupLoop (fun i => if i < 2 then BackupRc.busy else BackupRc.done) 3 0 =
      some ([BkEvent.step 1024, BkEvent.sleep 50, BkEvent.step 1024,
             BkEvent.sleep 50, BkEvent.step 1024], BackupRc.done) := by
  have h := (C8_snapshot_loop (fun i => if i < 2 then BackupRc.busy else BackupRc.done)
      2 true (by decide) (by decide)).1 3 (by decide)
  rw [h]
  rfl

/-- C9: a successful snapshot produces a destination database equal to
the source content at the snapshot instant, so a source whose `people`
table holds `K` rows yields a destination reporting exactly `K` rows.
The page-copy semantics is modelled from the spec (the SQLite backup
primitives are outside this repository). -/
theorem C9_snapshot_row_count (src : Database) (K : Nat)
    (prim : Nat → BackupRc) (finishOk : Bool) (fuel : Nat) (dest : Database)
    (hK : src.people.length = K)
    (hrun : backupDest src prim finishOk fuel = some dest) :
    getRowCount dest = K ∧ dest = src := by
  unfold backupDest at hrun
  rcases hbt : backupToFile prim finishOk fuel with _ | ⟨tr, oc⟩
  · rw [hbt] at hrun
    simp at hrun
  · rw [hbt] at hrun
    cases oc with
    | success =>
      simp only [Option.some.injEq] at hrun
      subst hrun
      exact ⟨hK, rfl⟩
    | failure msg =>
      simp at hrun

/-- Witness for C9 with a one-row source and an immediately-done primitive. -/
theorem C9_snapshot_row_count_witness :
    getRowCount (Database.mk [Person.mk "Anna" "Smith" "a@example.com" "t"]) = 1 :=
  (C9_snapshot_row_count (Database.mk [Person.mk "Anna" "Smith" "a@example.com" "t"]) 1
    (fun _ => BackupRc.done) true 1
    (Database.mk [Person.mk "Anna" "Smith" "a@example.com" "t"]) rfl rfl).1

end SqliteFtpBackup
